import Mathlib

/-!
Shallow embedding of the Firah journal-store application (src/app.py).

The program is a single-process SQLite-backed store with six tables
(users, circles, circle_members, practices, practice_logs, insights)
and a handful of CRUD/aggregate operations exposed through the classes
FirahDatabase, FirahUser, ConsciousCircle and FirahPractice.

The embedding models the database as a pure value (`Firah.DB`): each
table is a list of rows in insertion order, SQLite AUTOINCREMENT ids
are `length + 1` (tables are append-only, nothing is ever deleted),
REAL columns are represented by ℚ, and wall-clock timestamps
(CURRENT_TIMESTAMP / datetime.now()) by a logical clock that ticks on
every committing write.  Python's true division raises
ZeroDivisionError on a zero divisor, so the one division in
`log_practice` is modelled with an explicit `zeroDiv` result branch.
Read-only operations (`authenticate`, `get_journey_summary`,
`get_circle_info`) are plain functions of the state and return no new
state, mirroring the fact that they execute no INSERT/UPDATE.
-/

namespace Firah

/-- Row of the `users` table: id, username (UNIQUE), email (UNIQUE),
fitra_type, consciousness_level (REAL, default 1.0), created_at,
journey_data.  `register` stores the registration timestamp in the
journey blob, so the blob is modelled as `Option Nat` (none = the
default empty blob). -/
structure UserRow where
  id : Nat
  username : String
  email : String
  fitra_type : String
  consciousness_level : ℚ
  created_at : Nat
  journey_data : Option Nat
deriving DecidableEq

/-- Row of the `circles` table. `collective_intention` is NULLable and
only ever set by `set_collective_intention`. -/
structure CircleRow where
  id : Nat
  name : String
  description : String
  circle_type : String
  collective_intention : Option String
  admin_user_id : Nat
  created_at : Nat
deriving DecidableEq

/-- Row of the `circle_members` table; PRIMARY KEY (circle_id, user_id). -/
structure MemberRow where
  circle_id : Nat
  user_id : Nat
  joined_at : Nat
  role : String
deriving DecidableEq

/-- Row of the `practices` table. -/
structure PracticeRow where
  id : Nat
  title : String
  practice_type : String
  content : String
  duration_minutes : Int
  target_level : ℚ
deriving DecidableEq

/-- Row of the `practice_logs` table. -/
structure PracticeLogRow where
  id : Nat
  user_id : Nat
  practice_id : Nat
  duration_actual : Int
  notes : String
  consciousness_before : ℚ
  consciousness_after : ℚ
  logged_at : Nat
deriving DecidableEq

/-- Row of the `insights` table; `circle_id` is NULLable and
`is_shared` defaults to 0 (false). -/
structure InsightRow where
  id : Nat
  user_id : Nat
  circle_id : Option Nat
  title : String
  content : String
  insight_type : String
  is_shared : Bool
  created_at : Nat
deriving DecidableEq

/-- The whole SQLite database plus a logical clock used to produce
timestamps. -/
structure DB where
  users : List UserRow
  circles : List CircleRow
  members : List MemberRow
  practices : List PracticeRow
  logs : List PracticeLogRow
  insights : List InsightRow
  clock : Nat
deriving DecidableEq

/-- Freshly created database (`FirahDatabase.create_tables` on a new
file): all six tables empty. -/
def initDB : DB :=
  { users := [], circles := [], members := [], practices := [],
    logs := [], insights := [], clock := 0 }

/-- The query SELECT * FROM users WHERE id = ? (id is the primary key). -/
def findUser (db : DB) (user_id : Nat) : Option UserRow :=
  db.users.find? (fun u => u.id == user_id)

/-- The query SELECT * FROM circles WHERE id = ?. -/
def findCircle (db : DB) (circle_id : Nat) : Option CircleRow :=
  db.circles.find? (fun c => c.id == circle_id)

/-- The query SELECT * FROM practices WHERE id = ?. -/
def findPractice (db : DB) (practice_id : Nat) : Option PracticeRow :=
  db.practices.find? (fun p => p.id == practice_id)

/-- SELECT * FROM circle_members WHERE circle_id = ? AND user_id = ?
(the primary-key lookup). -/
def lookupMember (db : DB) (circle_id user_id : Nat) : Option MemberRow :=
  db.members.find? (fun m => m.circle_id == circle_id && m.user_id == user_id)

/-- The UNIQUE-constraint check that makes the INSERT in
`FirahUser.register` raise sqlite3.IntegrityError: some existing user
already has this username or this email. -/
def hasUserConflict (db : DB) (username email : String) : Bool :=
  db.users.any (fun u => u.username == username || u.email == email)

/-- FirahUser.register: INSERT INTO users (username, email, fitra_type,
consciousness_level, journey_data) VALUES (?, ?, ?, 1.0, blob-with-now).
Returns True and commits on success; on an IntegrityError (duplicate
username or email) prints an error and returns False with no change. -/
def register (db : DB) (username email fitra_type : String) : Bool × DB :=
  if hasUserConflict db username email then
    (false, db)
  else
    (true,
      { db with
          users := db.users ++
            [{ id := db.users.length + 1, username := username, email := email,
               fitra_type := fitra_type, consciousness_level := 1,
               created_at := db.clock, journey_data := some db.clock }],
          clock := db.clock + 1 })

/-- FirahUser.authenticate: SELECT id FROM users WHERE username = ?;
a pure lookup, no credential check and no write. -/
def authenticate (db : DB) (username : String) : Option Nat :=
  (db.users.find? (fun u => u.username == username)).map (fun u => u.id)

/-- FirahUser.update_consciousness: UPDATE users SET
consciousness_level = ? WHERE id = ?. -/
def update_consciousness (db : DB) (user_id : Nat) (new_level : ℚ) : DB :=
  { db with
      users := db.users.map (fun u =>
        if u.id == user_id then { u with consciousness_level := new_level } else u),
      clock := db.clock + 1 }

/-- FirahUser.add_insight: INSERT INTO insights (user_id, title,
content, insight_type) VALUES (?, ?, ?, ?).  The statement names no
circle_id and no is_shared, so the row gets NULL and the schema default
0 for them.  No existence check on the user; the insert always happens. -/
def add_insight (db : DB) (user_id : Nat) (title content insight_type : String) : DB :=
  { db with
      insights := db.insights ++
        [{ id := db.insights.length + 1, user_id := user_id, circle_id := none,
           title := title, content := content, insight_type := insight_type,
           is_shared := false, created_at := db.clock }],
      clock := db.clock + 1 }

/-- Result record of FirahUser.get_journey_summary. -/
structure JourneySummary where
  username : String
  fitra_type : String
  consciousness_level : ℚ
  insights_count : Nat
  practices_count : Nat
  created_at : Nat
deriving DecidableEq

/-- FirahUser.get_journey_summary: two COUNT(*) queries keyed on
user_id, one SELECT of the stored consciousness_level, and the cached
username / fitra_type / created_at of the loaded row (the cache always
mirrors the stored row).  Pure read, returns no new state.  For an id
with no user row the original dereferences a missing fetch result, so
the embedding returns none there. -/
def get_journey_summary (db : DB) (user_id : Nat) : Option JourneySummary :=
  (findUser db user_id).map (fun u =>
    { username := u.username,
      fitra_type := u.fitra_type,
      consciousness_level := u.consciousness_level,
      insights_count := (db.insights.filter (fun i => i.user_id == user_id)).length,
      practices_count := (db.logs.filter (fun l => l.user_id == user_id)).length,
      created_at := u.created_at })

/-- ConsciousCircle.add_member: INSERT OR REPLACE INTO circle_members
(circle_id, user_id, role) VALUES (?, ?, ?).  The primary key is
(circle_id, user_id): a conflicting row is replaced in place (role and
joined_at rewritten), otherwise the row is appended. -/
def add_member (db : DB) (circle_id user_id : Nat) (role : String) : DB :=
  let row : MemberRow :=
    { circle_id := circle_id, user_id := user_id, joined_at := db.clock, role := role }
  if db.members.any (fun m => m.circle_id == circle_id && m.user_id == user_id) then
    { db with
        members := db.members.map (fun m =>
          if m.circle_id == circle_id && m.user_id == user_id then row else m),
        clock := db.clock + 1 }
  else
    { db with members := db.members ++ [row], clock := db.clock + 1 }

/-- ConsciousCircle.create_circle: INSERT INTO circles (name,
description, circle_type, admin_user_id), take lastrowid, then call
`add_member circle_id admin "منشئ"`.  Returns the new circle id. -/
def create_circle (db : DB) (name description : String) (admin_user_id : Nat)
    (circle_type : String) : Nat × DB :=
  let circle_id := db.circles.length + 1
  let db1 : DB :=
    { db with
        circles := db.circles ++
          [{ id := circle_id, name := name, description := description,
             circle_type := circle_type, collective_intention := none,
             admin_user_id := admin_user_id, created_at := db.clock }],
        clock := db.clock + 1 }
  (circle_id, add_member db1 circle_id admin_user_id "منشئ")

/-- ConsciousCircle.set_collective_intention: UPDATE circles SET
collective_intention = ? WHERE id = ?. -/
def set_collective_intention (db : DB) (circle_id : Nat) (intention : String) : DB :=
  { db with
      circles := db.circles.map (fun c =>
        if c.id == circle_id then { c with collective_intention := some intention } else c),
      clock := db.clock + 1 }

/-- Levels produced by the JOIN in get_circle_info: one
consciousness_level per circle_members row whose user_id matches an
existing users row (users.id is the primary key, so at most one match). -/
def memberLevels (db : DB) (circle_id : Nat) : List ℚ :=
  db.members.filterMap (fun m =>
    if m.circle_id == circle_id then
      (db.users.find? (fun u => u.id == m.user_id)).map (fun u => u.consciousness_level)
    else none)

/-- The query COUNT(*) FROM circle_members WHERE circle_id = ?. -/
def memberCount (db : DB) (circle_id : Nat) : Nat :=
  (db.members.filter (fun m => m.circle_id == circle_id)).length

/-- Python's round-half-to-even on an exact rational. -/
def roundHalfEven (q : ℚ) : Int :=
  let n := ⌊q⌋
  if q - n < 1/2 then n
  else if (1 : ℚ)/2 < q - n then n + 1
  else if n % 2 = 0 then n else n + 1

/-- round(x, 2): round to two decimal places, ties to even. -/
def round2 (q : ℚ) : ℚ :=
  (roundHalfEven (q * 100) : ℚ) / 100

/-- Result record of ConsciousCircle.get_circle_info. -/
structure CircleInfo where
  circle : CircleRow
  member_count : Nat
  avg_consciousness : ℚ
deriving DecidableEq

/-- ConsciousCircle.get_circle_info: returns the empty dict when no
circle row matches (`if not circle: return {}`); otherwise the circle
row, COUNT(*) of its circle_members rows, and round(AVG(joined
members' consciousness_level) or 0, 2) — SQL AVG is NULL on an empty
join, and `or 0` turns NULL (and 0.0) into 0.  Pure read, returns no
new state. -/
def get_circle_info (db : DB) (circle_id : Nat) : Option CircleInfo :=
  (findCircle db circle_id).map (fun c =>
    let levels := memberLevels db circle_id
    let avg : ℚ := if levels.isEmpty then 0 else levels.sum / (levels.length : ℚ)
    { circle := c,
      member_count := memberCount db circle_id,
      avg_consciousness := round2 avg })

/-- FirahPractice.add_practice: INSERT INTO practices (title,
practice_type, content, duration_minutes, target_level). -/
def add_practice (db : DB) (title practice_type content : String)
    (duration_minutes : Int) (target_level : ℚ) : DB :=
  { db with
      practices := db.practices ++
        [{ id := db.practices.length + 1, title := title,
           practice_type := practice_type, content := content,
           duration_minutes := duration_minutes, target_level := target_level }],
      clock := db.clock + 1 }

/-- Outcome of FirahPractice.log_practice: the template lookup can
fail (prints an error and returns None with no write), the division
`duration_actual / target_duration` raises ZeroDivisionError when the
template's duration is 0 (no write happens either), and otherwise the
new consciousness level is returned. -/
inductive LogResult where
  | notFound : LogResult
  | zeroDiv : LogResult
  | ok : ℚ → LogResult
deriving DecidableEq

/-- FirahPractice.log_practice: SELECT target_level, duration_minutes
FROM practices WHERE id = ?; effectiveness = min(duration_actual /
target_duration, 1.5); consciousness_after = consciousness_before +
target_level * effectiveness * 0.1; INSERT the practice_logs row with
both snapshots; UPDATE users SET consciousness_level =
consciousness_after WHERE id = user_id; return consciousness_after. -/
def log_practice (db : DB) (user_id practice_id : Nat) (duration_actual : Int)
    (notes : String) (consciousness_before : ℚ) : LogResult × DB :=
  match findPractice db practice_id with
  | none => (LogResult.notFound, db)
  | some p =>
    if p.duration_minutes = 0 then (LogResult.zeroDiv, db)
    else
      let effectiveness : ℚ :=
        min ((duration_actual : ℚ) / (p.duration_minutes : ℚ)) (3/2)
      let consciousness_after : ℚ :=
        consciousness_before + p.target_level * effectiveness * (1/10)
      (LogResult.ok consciousness_after,
        { db with
            logs := db.logs ++
              [{ id := db.logs.length + 1, user_id := user_id,
                 practice_id := practice_id, duration_actual := duration_actual,
                 notes := notes, consciousness_before := consciousness_before,
                 consciousness_after := consciousness_after, logged_at := db.clock }],
            users := db.users.map (fun u =>
              if u.id == user_id then { u with consciousness_level := consciousness_after } else u),
            clock := db.clock + 1 })

/-- The store-mutating operations a caller can issue (the read-only
operations execute no INSERT/UPDATE and are plain functions of the
state, so they do not appear in traces). -/
inductive Op where
  | register (username email fitra_type : String) : Op
  | updateConsciousness (user_id : Nat) (new_level : ℚ) : Op
  | addInsight (user_id : Nat) (title content insight_type : String) : Op
  | createCircle (name description : String) (admin_user_id : Nat) (circle_type : String) : Op
  | addMember (circle_id user_id : Nat) (role : String) : Op
  | setIntention (circle_id : Nat) (intention : String) : Op
  | addPractice (title practice_type content : String) (duration_minutes : Int) (target_level : ℚ) : Op
  | logPractice (user_id practice_id : Nat) (duration_actual : Int) (notes : String) (consciousness_before : ℚ) : Op
deriving DecidableEq

/-- Effect of one operation on the store (results discarded). -/
def step (db : DB) : Op → DB
  | Op.register username email fitra_type => (register db username email fitra_type).2
  | Op.updateConsciousness user_id new_level => update_consciousness db user_id new_level
  | Op.addInsight user_id title content insight_type => add_insight db user_id title content insight_type
  | Op.createCircle name description admin_user_id circle_type =>
      (create_circle db name description admin_user_id circle_type).2
  | Op.addMember circle_id user_id role => add_member db circle_id user_id role
  | Op.setIntention circle_id intention => set_collective_intention db circle_id intention
  | Op.addPractice title practice_type content duration_minutes target_level =>
      add_practice db title practice_type content duration_minutes target_level
  | Op.logPractice user_id practice_id duration_actual notes consciousness_before =>
      (log_practice db user_id practice_id duration_actual notes consciousness_before).2

/-- Run a whole trace of operations from a state. -/
def run (db : DB) (ops : List Op) : DB :=
  ops.foldl step db

/-- The level `log_practice` computes and stores on the success path:
consciousness_before + target_level * min(duration_actual /
target_duration, 1.5) * 0.1.  It mentions only the call arguments and
the template row, never the user's previously stored level. -/
def afterLevel (p : PracticeRow) (duration_actual : Int) (consciousness_before : ℚ) : ℚ :=
  consciousness_before +
    p.target_level * min ((duration_actual : ℚ) / (p.duration_minutes : ℚ)) (3/2) * (1/10)

/-- Arithmetic mean of a list of levels, 0 for the empty list — the
spec's description of the collective-consciousness aggregate. -/
def mean (l : List ℚ) : ℚ :=
  if l = [] then 0 else l.sum / (l.length : ℚ)

/-- Whether a `log_practice` call succeeded (reached the insert). -/
def LogResult.isOk : LogResult → Bool
  | LogResult.ok _ => true
  | _ => false

/-- Number of AddInsight calls for a given user in a trace (each such
call inserts unconditionally, so each one is successful). -/
def countInsightOps (user_id : Nat) : List Op → Nat
  | [] => 0
  | Op.addInsight uid _ _ _ :: rest =>
      countInsightOps user_id rest + (if uid = user_id then 1 else 0)
  | _ :: rest => countInsightOps user_id rest

/-- Number of successful LogPractice calls for a given user in a trace
executed from a given state: a call counts exactly when its own result
at the state it runs in is `ok`. -/
def countLogOps (user_id : Nat) : DB → List Op → Nat
  | _, [] => 0
  | db, op :: rest =>
      countLogOps user_id (step db op) rest +
        match op with
        | Op.logPractice uid pid da n b =>
            if uid = user_id ∧ (log_practice db uid pid da n b).1.isOk = true then 1 else 0
        | _ => 0

/-- The query COUNT(*) FROM insights WHERE user_id = ?. -/
def insCount (db : DB) (user_id : Nat) : Nat :=
  (db.insights.filter (fun i => i.user_id == user_id)).length

/-- The query COUNT(*) FROM practice_logs WHERE user_id = ?. -/
def logCount (db : DB) (user_id : Nat) : Nat :=
  (db.logs.filter (fun l => l.user_id == user_id)).length

/-- Every circle row has at least one membership row. -/
def CirclesHaveMembers (db : DB) : Prop :=
  ∀ c ∈ db.circles, ∃ m ∈ db.members, m.circle_id = c.id

/-- Every insight row is unscoped (NULL circle) and private. -/
def InsightsPrivate (db : DB) : Prop :=
  ∀ i ∈ db.insights, i.circle_id = none ∧ i.is_shared = false

lemma mem_map_update_level (l : List UserRow) (user_id : Nat) (q : ℚ) :
    ∀ u ∈ l.map (fun u =>
      if u.id == user_id then { u with consciousness_level := q } else u),
      u.id = user_id → u.consciousness_level = q := by
  intro u hu hid
  rcases List.mem_map.1 hu with ⟨a, _, rfl⟩
  by_cases h : (a.id == user_id) = true
  · simp [h]
  · simp only [h, if_neg, Bool.false_eq_true, not_false_eq_true, ite_false] at hid ⊢
    exact absurd (by simpa using hid) (by simpa using h)

/-- C1: on an existing template with nonzero target duration,
`log_practice` returns `levelBefore + targetLevel * min(actual/target,
1.5) * 0.1` and stores exactly that value on the user's row; with
actual=15, target=10, targetLevel=1.5, before=1.0 the value is 1.225;
and whenever `actual ≥ 1.5 * target` the value collapses to
`before + targetLevel * 1.5 * 0.1`, independent of `actual`. -/
theorem log_practice_formula (db : DB) (user_id practice_id : Nat)
    (duration_actual : Int) (notes : String) (consciousness_before : ℚ)
    (p : PracticeRow) (hp : findPractice db practice_id = some p)
    (hd : p.duration_minutes ≠ 0) :
    (log_practice db user_id practice_id duration_actual notes consciousness_before).1
      = LogResult.ok (afterLevel p duration_actual consciousness_before)
    ∧ (∀ u ∈ (log_practice db user_id practice_id duration_actual notes consciousness_before).2.users,
        u.id = user_id → u.consciousness_level = afterLevel p duration_actual consciousness_before)
    ∧ (p.duration_minutes = 10 → p.target_level = 3/2 → duration_actual = 15 →
        consciousness_before = 1 → afterLevel p duration_actual consciousness_before = 1.225)
    ∧ (0 < p.duration_minutes → (p.duration_minutes : ℚ) * (3/2) ≤ (duration_actual : ℚ) →
        afterLevel p duration_actual consciousness_before
          = consciousness_before + p.target_level * (3/2) * (1/10)) := by
  refine ⟨?_, ?_, ?_, ?_⟩
  · simp [log_practice, hp, hd, afterLevel]
  · intro u hu hid
    simp only [log_practice, hp, hd, if_neg] at hu
    exact mem_map_update_level db.users user_id _ u hu hid
  · intro h1 h2 h3 h4
    subst h3; subst h4
    have h15 : ((15 : Int) : ℚ) / ((p.duration_minutes : Int) : ℚ) = 3/2 := by
      rw [h1]; norm_num
    simp only [afterLevel, h2, h15, min_self]
    norm_num
  · intro hpos hge
    have hT : (0 : ℚ) < (p.duration_minutes : ℚ) := by exact_mod_cast hpos
    have hmin : min ((duration_actual : ℚ) / (p.duration_minutes : ℚ)) (3/2) = 3/2 := by
      refine min_eq_right ?_
      rw [le_div_iff₀ hT]
      linarith [hge]
    simp [afterLevel, hmin]

theorem log_practice_formula_witness :
    (log_practice (add_practice initDB "تأمل فطري" "تأمل" "تعليمات" 10 (3/2)) 1 1 15 "" 1).1
      = LogResult.ok 1.225 := by
  have h := log_practice_formula (add_practice initDB "تأمل فطري" "تأمل" "تعليمات" 10 (3/2))
      1 1 15 "" 1 ⟨1, "تأمل فطري", "تأمل", "تعليمات", 10, 3/2⟩ rfl (by decide)
  rw [h.1, h.2.2.1 rfl rfl rfl rfl]

/-- C2: when the practice id matches no template, `log_practice`
reports the template as missing and leaves the store untouched: no
practice_logs row is appended and no user row changes. -/
theorem log_practice_not_found (db : DB) (user_id practice_id : Nat)
    (duration_actual : Int) (notes : String) (consciousness_before : ℚ)
    (h : findPractice db practice_id = none) :
    log_practice db user_id practice_id duration_actual notes consciousness_before
      = (LogResult.notFound, db) := by
  simp [log_practice, h]

theorem log_practice_not_found_witness :
    log_practice initDB 1 1 5 "" 1 = (LogResult.notFound, initDB) :=
  log_practice_not_found initDB 1 1 5 "" 1 rfl

/-- C8: a template with target duration 0 is creatable, and
`log_practice` against it reaches the division-fault branch (Python's
un-guarded `duration_actual / target_duration` raises
ZeroDivisionError): `log_practice` is not total over such templates. -/
theorem log_practice_zero_duration_fault :
    (log_practice (run initDB [Op.addPractice "صمت" "تأمل" "محتوى" 0 1]) 1 1 5 "" 1).1
      = LogResult.zeroDiv
    ∧ (log_practice (run initDB [Op.addPractice "صمت" "تأمل" "محتوى" 0 1]) 1 1 5 "" 1).2
      = run initDB [Op.addPractice "صمت" "تأمل" "محتوى" 0 1] :=
  ⟨rfl, rfl⟩

lemma hasUserConflict_iff (db : DB) (username email : String) :
    hasUserConflict db username email = true
      ↔ ∃ u ∈ db.users, u.username = username ∨ u.email = email := by
  simp [hasUserConflict]

/-- C3: registering a handle or address that an existing user already
carries fails (returns false) and leaves the store — in particular the
existing user's row — untouched; registering a fresh handle and
address appends exactly one user row with consciousness_level 1.0 and
a journey blob holding the registration timestamp. -/
theorem register_duplicate_key (db : DB) (username email fitra_type : String) :
    ((∃ u ∈ db.users, u.username = username ∨ u.email = email) →
        register db username email fitra_type = (false, db))
    ∧ (¬ (∃ u ∈ db.users, u.username = username ∨ u.email = email) →
        register db username email fitra_type =
          (true, { db with
              users := db.users ++
                [{ id := db.users.length + 1, username := username, email := email,
                   fitra_type := fitra_type, consciousness_level := 1,
                   created_at := db.clock, journey_data := some db.clock }],
              clock := db.clock + 1 })) := by
  constructor
  · intro h
    have hb : hasUserConflict db username email = true :=
      (hasUserConflict_iff db username email).mpr h
    simp [register, hb]
  · intro h
    have hb : hasUserConflict db username email = false := by
      rw [← Bool.not_eq_true]
      exact fun hc => h ((hasUserConflict_iff db username email).mp hc)
    simp [register, hb]

theorem register_duplicate_key_witness :
    register (register initDB "أحمد" "ahmed@firah.demo" "مستكشف").2 "أحمد" "other@firah.demo" "قائد"
      = (false, (register initDB "أحمد" "ahmed@firah.demo" "مستكشف").2) :=
  (register_duplicate_key (register initDB "أحمد" "ahmed@firah.demo" "مستكشف").2
      "أحمد" "other@firah.demo" "قائد").1
    ⟨⟨1, "أحمد", "ahmed@firah.demo", "مستكشف", 1, 0, some 0⟩,
      List.Mem.head _, Or.inl rfl⟩

lemma find?_key_replace (l : List MemberRow) (cid uid : Nat) (row : MemberRow)
    (hrow : (row.circle_id == cid && row.user_id == uid) = true)
    (h : l.any (fun m => m.circle_id == cid && m.user_id == uid) = true) :
    (l.map (fun m => if m.circle_id == cid && m.user_id == uid then row else m)).find?
        (fun m => m.circle_id == cid && m.user_id == uid) = some row := by
  induction l with
  | nil => simp at h
  | cons m l ih =>
    rw [List.map_cons, List.find?_cons]
    by_cases hm : (m.circle_id == cid && m.user_id == uid) = true
    · rw [if_pos hm, hrow]
    · rw [if_neg hm]
      have hmf : (m.circle_id == cid && m.user_id == uid) = false := by simpa using hm
      rw [hmf]
      have h' : l.any (fun m => m.circle_id == cid && m.user_id == uid) = true := by
        rcases List.any_eq_true.mp h with ⟨x, hx, hpx⟩
        rcases List.mem_cons.mp hx with rfl | hxl
        · exact absurd hpx hm
        · exact List.any_eq_true.mpr ⟨x, hxl, hpx⟩
      exact ih h'

lemma lookupMember_add_member (db : DB) (cid uid : Nat) (r : String) :
    lookupMember (add_member db cid uid r) cid uid
      = some ⟨cid, uid, db.clock, r⟩ := by
  by_cases h : db.members.any (fun m => m.circle_id == cid && m.user_id == uid) = true
  · simp only [lookupMember, add_member, h, if_true]
    exact find?_key_replace db.members cid uid _ (by simp) h
  · have hb : db.members.any (fun m => m.circle_id == cid && m.user_id == uid) = false := by
      simpa using h
    simp only [lookupMember, add_member, hb, Bool.false_eq_true, if_false]
    rw [List.find?_append, List.find?_eq_none.mpr, Option.none_or]
    · simp [List.find?_cons]
    · exact fun x hx => List.any_eq_false.mp hb x hx

lemma add_member_members_any (db : DB) (cid uid : Nat) (r : String) :
    (add_member db cid uid r).members.any
      (fun m => m.circle_id == cid && m.user_id == uid) = true := by
  have h := lookupMember_add_member db cid uid r
  unfold lookupMember at h
  refine List.any_eq_true.mpr
    ⟨⟨cid, uid, db.clock, r⟩, List.mem_of_find?_eq_some h, ?_⟩
  simp

lemma add_member_replace_branch (db : DB) (cid uid : Nat) (r : String)
    (h : db.members.any (fun m => m.circle_id == cid && m.user_id == uid) = true) :
    add_member db cid uid r =
      { db with
          members := db.members.map (fun m =>
            if m.circle_id == cid && m.user_id == uid then
              { circle_id := cid, user_id := uid, joined_at := db.clock, role := r } else m),
          clock := db.clock + 1 } := by
  simp [add_member, h]

/-- C4: adding the same (circle, user) pair twice with different roles
never fails; after the second call the stored role for the pair is the
second call's role, and neither the circle's member count nor the
total number of membership rows grows: the second insert replaced the
row keyed by (circle_id, user_id). -/
theorem add_member_twice_replaces (db : DB) (circle_id user_id : Nat) (role1 role2 : String) :
    (lookupMember (add_member (add_member db circle_id user_id role1) circle_id user_id role2)
        circle_id user_id).map (fun m => m.role) = some role2
    ∧ memberCount (add_member (add_member db circle_id user_id role1) circle_id user_id role2)
        circle_id
        = memberCount (add_member db circle_id user_id role1) circle_id
    ∧ (add_member (add_member db circle_id user_id role1) circle_id user_id role2).members.length
        = (add_member db circle_id user_id role1).members.length := by
  have hany := add_member_members_any db circle_id user_id role1
  refine ⟨?_, ?_, ?_⟩
  · rw [lookupMember_add_member]
    rfl
  · rw [add_member_replace_branch _ _ _ _ hany]
    unfold memberCount
    rw [← List.countP_eq_length_filter, ← List.countP_eq_length_filter, List.countP_map]
    refine List.countP_congr ?_
    intro m _
    by_cases hm : (m.circle_id == circle_id && m.user_id == user_id) = true
    · have hcid : (m.circle_id == circle_id) = true := ((Bool.and_eq_true _ _).mp hm).1
      simp only [Function.comp_apply, if_pos hm]
      simp [hcid]
    · simp only [Function.comp_apply, if_neg hm]
  · rw [add_member_replace_branch _ _ _ _ hany]
    simp

/-- C5: `get_circle_info` yields an empty result exactly when the
circle id matches no row (and never an error); on a hit it yields the
circle row itself, the circle's member count, and the arithmetic mean
of the joined members' levels (0 when there are none) rounded to two
decimal places.  It is a pure read: it takes the store and returns
only a report, never a new store. -/
theorem get_circle_info_report (db : DB) (circle_id : Nat) :
    (get_circle_info db circle_id).isSome = (findCircle db circle_id).isSome
    ∧ (get_circle_info db circle_id).map (fun i => i.circle) = findCircle db circle_id
    ∧ (get_circle_info db circle_id).map (fun i => i.member_count)
        = (findCircle db circle_id).map (fun _ => memberCount db circle_id)
    ∧ (get_circle_info db circle_id).map (fun i => i.avg_consciousness)
        = (findCircle db circle_id).map
            (fun _ => round2 (mean (memberLevels db circle_id))) := by
  cases h : findCircle db circle_id with
  | none => simp [get_circle_info, h]
  | some c =>
    refine ⟨by simp [get_circle_info, h], by simp [get_circle_info, h],
      by simp [get_circle_info, h], ?_⟩
    simp [get_circle_info, h, mean]

lemma findUser_map_update (l : List UserRow) (user_id : Nat) (q : ℚ) :
    (l.map (fun u =>
        if u.id == user_id then { u with consciousness_level := q } else u)).find?
        (fun u => u.id == user_id)
      = (l.find? (fun u => u.id == user_id)).map
          (fun u => { u with consciousness_level := q }) := by
  rw [List.find?_map]
  have hpred : ((fun u : UserRow => u.id == user_id) ∘
      (fun u => if u.id == user_id then { u with consciousness_level := q } else u))
      = fun u : UserRow => u.id == user_id := by
    funext u
    by_cases hcase : (u.id == user_id) = true
    · simp only [Function.comp_apply, if_pos hcase]
    · simp only [Function.comp_apply, if_neg hcase]
  rw [hpred]
  cases hf : l.find? (fun u => u.id == user_id) with
  | none => rfl
  | some u =>
    have hu := List.find?_some hf
    simp only [Option.map_some']
    rw [if_pos hu]

/-- C10 (amended): on an existing template with nonzero duration, the
level stored for the user after `log_practice` equals
`levelBefore + targetLevel * min(actual/target, 1.5) * 0.1` — an
expression in the call's arguments and the template only, so it is
independent of the level previously stored for the user; consequently
the call decreases the stored level exactly when levelBefore plus the
computed increment is below the previously stored level (not whenever
levelBefore alone is below it). -/
theorem log_practice_level_ignores_stored (db : DB) (user_id practice_id : Nat)
    (duration_actual : Int) (notes : String) (before prev : ℚ) (p : PracticeRow)
    (hp : findPractice db practice_id = some p) (hd : p.duration_minutes ≠ 0)
    (hu : (findUser db user_id).map (fun u => u.consciousness_level) = some prev) :
    ((findUser (log_practice db user_id practice_id duration_actual notes before).2 user_id).map
        (fun u => u.consciousness_level) = some (afterLevel p duration_actual before))
    ∧ ((∃ q, (findUser (log_practice db user_id practice_id duration_actual notes before).2
            user_id).map (fun u => u.consciousness_level) = some q ∧ q < prev)
        ↔ afterLevel p duration_actual before < prev) := by
  have hmain : (findUser (log_practice db user_id practice_id duration_actual notes before).2
      user_id).map (fun u => u.consciousness_level)
      = some (afterLevel p duration_actual before) := by
    simp only [log_practice, hp]
    rw [if_neg hd]
    unfold findUser
    rw [show (afterLevel p duration_actual before)
          = before + p.target_level *
              min ((duration_actual : ℚ) / (p.duration_minutes : ℚ)) (3/2) * (1/10) from rfl]
    rw [findUser_map_update]
    cases hf : db.users.find? (fun u => u.id == user_id) with
    | none =>
      exfalso
      unfold findUser at hu
      rw [hf] at hu
      exact Option.noConfusion hu
    | some u => simp
  refine ⟨hmain, ?_, ?_⟩
  · rintro ⟨q, hq, hlt⟩
    rw [hmain] at hq
    injection hq with hq
    rwa [hq]
  · intro hlt
    exact ⟨afterLevel p duration_actual before, hmain, hlt⟩

theorem log_practice_level_ignores_stored_witness :
    (findUser (log_practice (run initDB [Op.register "أحمد" "ahmed@firah.demo" "مستكشف",
        Op.addPractice "تأمل" "نوع" "محتوى" 10 1]) 1 1 15 "" (19/10)).2 1).map
        (fun u => u.consciousness_level) = some (41/20) := by
  have h := log_practice_level_ignores_stored
      (run initDB [Op.register "أحمد" "ahmed@firah.demo" "مستكشف",
        Op.addPractice "تأمل" "نوع" "محتوى" 10 1]) 1 1 15 "" (19/10) 1
      ⟨1, "تأمل", "نوع", "محتوى", 10, 1⟩ rfl (by decide) rfl
  rw [h.1]
  have h2 : ((15 : Int) : ℚ) / ((10 : Int) : ℚ) = 3/2 := by norm_num
  unfold afterLevel
  rw [h2, min_self]
  norm_num

/-- C10 as frozen is refuted at a concrete store: the user's stored
level is 2, the call passes levelBefore = 1.9 < 2, yet the stored
level after the call is 2.05 > 2 — the call increased, not decreased,
the stored level. -/
theorem log_practice_lower_before_counterexample :
    ((findUser (run initDB [Op.register "أحمد" "ahmed@firah.demo" "مستكشف",
        Op.updateConsciousness 1 2, Op.addPractice "تأمل" "نوع" "محتوى" 10 1]) 1).map
        (fun u => u.consciousness_level) = some 2)
    ∧ (19/10 : ℚ) < 2
    ∧ ((findUser (log_practice (run initDB [Op.register "أحمد" "ahmed@firah.demo" "مستكشف",
        Op.updateConsciousness 1 2, Op.addPractice "تأمل" "نوع" "محتوى" 10 1])
          1 1 15 "" (19/10)).2 1).map
        (fun u => u.consciousness_level) = some (41/20))
    ∧ (2 : ℚ) < 41/20 := by
  refine ⟨rfl, by norm_num, ?_, by norm_num⟩
  have h : (findUser (log_practice (run initDB [Op.register "أحمد" "ahmed@firah.demo" "مستكشف",
      Op.updateConsciousness 1 2, Op.addPractice "تأمل" "نوع" "محتوى" 10 1])
        1 1 15 "" (19/10)).2 1).map (fun u => u.consciousness_level)
      = some ((19/10 : ℚ) + 1 * min (((15 : Int) : ℚ) / ((10 : Int) : ℚ)) (3/2) * (1/10)) := rfl
  rw [h]
  have h2 : ((15 : Int) : ℚ) / ((10 : Int) : ℚ) = 3/2 := by norm_num
  rw [h2, min_self]
  norm_num

lemma register_circles (db : DB) (un em ft : String) :
    (register db un em ft).2.circles = db.circles := by
  unfold register; split <;> rfl

lemma register_members (db : DB) (un em ft : String) :
    (register db un em ft).2.members = db.members := by
  unfold register; split <;> rfl

lemma register_insights (db : DB) (un em ft : String) :
    (register db un em ft).2.insights = db.insights := by
  unfold register; split <;> rfl

lemma register_logs (db : DB) (un em ft : String) :
    (register db un em ft).2.logs = db.logs := by
  unfold register; split <;> rfl

lemma add_member_circles (db : DB) (cid uid : Nat) (r : String) :
    (add_member db cid uid r).circles = db.circles := by
  simp only [add_member]; split <;> rfl

lemma add_member_insights (db : DB) (cid uid : Nat) (r : String) :
    (add_member db cid uid r).insights = db.insights := by
  simp only [add_member]; split <;> rfl

lemma add_member_logs (db : DB) (cid uid : Nat) (r : String) :
    (add_member db cid uid r).logs = db.logs := by
  simp only [add_member]; split <;> rfl

lemma add_member_users (db : DB) (cid uid : Nat) (r : String) :
    (add_member db cid uid r).users = db.users := by
  simp only [add_member]; split <;> rfl

lemma create_circle_eq (db : DB) (n d : String) (a : Nat) (ct : String) :
    create_circle db n d a ct =
      (db.circles.length + 1,
        add_member
          { db with
              circles := db.circles ++
                [{ id := db.circles.length + 1, name := n, description := d,
                   circle_type := ct, collective_intention := none,
                   admin_user_id := a, created_at := db.clock }],
              clock := db.clock + 1 }
          (db.circles.length + 1) a "منشئ") := rfl

lemma create_circle_circles (db : DB) (n d : String) (a : Nat) (ct : String) :
    (create_circle db n d a ct).2.circles = db.circles ++
      [{ id := db.circles.length + 1, name := n, description := d,
         circle_type := ct, collective_intention := none,
         admin_user_id := a, created_at := db.clock }] := by
  rw [create_circle_eq, add_member_circles]

lemma create_circle_insights (db : DB) (n d : String) (a : Nat) (ct : String) :
    (create_circle db n d a ct).2.insights = db.insights := by
  rw [create_circle_eq, add_member_insights]

lemma create_circle_logs (db : DB) (n d : String) (a : Nat) (ct : String) :
    (create_circle db n d a ct).2.logs = db.logs := by
  rw [create_circle_eq, add_member_logs]

lemma log_practice_circles (db : DB) (uid pid : Nat) (da : Int) (n : String) (b : ℚ) :
    (log_practice db uid pid da n b).2.circles = db.circles := by
  unfold log_practice
  split
  · rfl
  · split <;> rfl

lemma log_practice_members (db : DB) (uid pid : Nat) (da : Int) (n : String) (b : ℚ) :
    (log_practice db uid pid da n b).2.members = db.members := by
  unfold log_practice
  split
  · rfl
  · split <;> rfl

lemma log_practice_insights (db : DB) (uid pid : Nat) (da : Int) (n : String) (b : ℚ) :
    (log_practice db uid pid da n b).2.insights = db.insights := by
  unfold log_practice
  split
  · rfl
  · split <;> rfl

lemma add_member_append_branch (db : DB) (cid uid : Nat) (r : String)
    (h : db.members.any (fun m => m.circle_id == cid && m.user_id == uid) = false) :
    add_member db cid uid r =
      { db with
          members := db.members ++
            [{ circle_id := cid, user_id := uid, joined_at := db.clock, role := r }],
          clock := db.clock + 1 } := by
  simp [add_member, h]

lemma add_member_keeps_member (db : DB) (cid uid : Nat) (r : String) (x : Nat)
    (h : ∃ m ∈ db.members, m.circle_id = x) :
    ∃ m ∈ (add_member db cid uid r).members, m.circle_id = x := by
  rcases h with ⟨m0, hm0, hx⟩
  by_cases hg : db.members.any (fun m => m.circle_id == cid && m.user_id == uid) = true
  · rw [add_member_replace_branch db cid uid r hg]
    refine ⟨_, List.mem_map_of_mem _ hm0, ?_⟩
    by_cases hm : (m0.circle_id == cid && m0.user_id == uid) = true
    · rw [if_pos hm]
      have hcid : m0.circle_id = cid := by
        simpa using ((Bool.and_eq_true _ _).mp hm).1
      show cid = x
      rw [← hcid]
      exact hx
    · rw [if_neg hm]
      exact hx
  · have hgf : db.members.any (fun m => m.circle_id == cid && m.user_id == uid) = false := by
      simpa using hg
    rw [add_member_append_branch db cid uid r hgf]
    exact ⟨m0, List.mem_append_left _ hm0, hx⟩

lemma add_member_new_member (db : DB) (cid uid : Nat) (r : String) :
    ∃ m ∈ (add_member db cid uid r).members,
      m.circle_id = cid ∧ m.user_id = uid ∧ m.role = r := by
  have h := lookupMember_add_member db cid uid r
  unfold lookupMember at h
  exact ⟨_, List.mem_of_find?_eq_some h, rfl, rfl, rfl⟩

lemma chm_step (db : DB) (op : Op) (h : CirclesHaveMembers db) :
    CirclesHaveMembers (step db op) := by
  cases op with
  | register un em ft =>
      intro c hc
      simp only [step] at hc ⊢
      rw [register_circles] at hc
      rw [register_members]
      exact h c hc
  | updateConsciousness uid lvl =>
      intro c hc
      exact h c hc
  | addInsight uid t cc ty =>
      intro c hc
      exact h c hc
  | addPractice t ty cc dm tl =>
      intro c hc
      exact h c hc
  | setIntention cid t =>
      intro c hc
      simp only [step, set_collective_intention] at hc
      rcases List.mem_map.1 hc with ⟨c0, hc0, rfl⟩
      rcases h c0 hc0 with ⟨m, hm, hcid⟩
      refine ⟨m, hm, ?_⟩
      by_cases hcase : (c0.id == cid) = true
      · rw [if_pos hcase]
        exact hcid
      · rw [if_neg hcase]
        exact hcid
  | addMember cid uid r =>
      intro c hc
      simp only [step] at hc ⊢
      rw [add_member_circles] at hc
      exact add_member_keeps_member db cid uid r c.id (h c hc)
  | createCircle n d a ct =>
      intro c hc
      simp only [step] at hc ⊢
      rw [create_circle_circles] at hc
      rw [create_circle_eq]
      rcases List.mem_append.1 hc with hcl | hcr
      · exact add_member_keeps_member _ _ _ _ c.id (h c hcl)
      · rcases List.mem_singleton.1 hcr with rfl
        rcases add_member_new_member
            { db with
                circles := db.circles ++
                  [{ id := db.circles.length + 1, name := n, description := d,
                     circle_type := ct, collective_intention := none,
                     admin_user_id := a, created_at := db.clock }],
                clock := db.clock + 1 }
            (db.circles.length + 1) a "منشئ" with ⟨m, hm, hcid, _, _⟩
        exact ⟨m, hm, hcid⟩
  | logPractice uid pid da n b =>
      intro c hc
      simp only [step] at hc ⊢
      rw [log_practice_circles] at hc
      rw [log_practice_members]
      exact h c hc

lemma chm_run (ops : List Op) :
    ∀ db, CirclesHaveMembers db → CirclesHaveMembers (run db ops) := by
  induction ops with
  | nil => exact fun db h => h
  | cons op ops ih => exact fun db h => ih (step db op) (chm_step db op h)

/-- C6: `create_circle` always inserts its admin as a member of the
new circle with role "منشئ" (creator), and consequently in every state
reachable from the fresh store by any sequence of operations, every
circle row has at least one membership row. -/
theorem create_circle_creator_member :
    (∀ (db : DB) (n d : String) (a : Nat) (ct : String),
        ∃ m ∈ (create_circle db n d a ct).2.members,
          m.circle_id = (create_circle db n d a ct).1 ∧ m.user_id = a ∧ m.role = "منشئ")
    ∧ ∀ ops : List Op, CirclesHaveMembers (run initDB ops) := by
  constructor
  · intro db n d a ct
    rw [create_circle_eq]
    exact add_member_new_member _ _ _ _
  · intro ops
    refine chm_run ops initDB ?_
    intro c hc
    exact absurd hc (List.not_mem_nil c)

theorem create_circle_creator_member_witness :
    ∃ m ∈ (run initDB [Op.register "أحمد" "ahmed@firah.demo" "مستكشف",
        Op.createCircle "دائرة الحكمة" "وصف" 1 "تأمل"]).members,
      m.circle_id = 1 := by
  have h := create_circle_creator_member.2
      [Op.register "أحمد" "ahmed@firah.demo" "مستكشف",
        Op.createCircle "دائرة الحكمة" "وصف" 1 "تأمل"]
      ⟨1, "دائرة الحكمة", "وصف", "تأمل", none, 1, 1⟩ (List.Mem.head _)
  exact h

lemma insights_private_step (db : DB) (op : Op) (h : InsightsPrivate db) :
    InsightsPrivate (step db op) := by
  cases op with
  | addInsight uid t c ty =>
      intro i hi
      simp only [step, add_insight] at hi
      rcases List.mem_append.1 hi with hl | hr
      · exact h i hl
      · rcases List.mem_singleton.1 hr with rfl
        exact ⟨rfl, rfl⟩
  | register un em ft =>
      intro i hi
      simp only [step] at hi
      rw [register_insights] at hi
      exact h i hi
  | updateConsciousness uid lvl =>
      intro i hi
      exact h i hi
  | addPractice t ty c dm tl =>
      intro i hi
      exact h i hi
  | setIntention cid t =>
      intro i hi
      exact h i hi
  | addMember cid uid r =>
      intro i hi
      simp only [step] at hi
      rw [add_member_insights] at hi
      exact h i hi
  | createCircle n d a ct =>
      intro i hi
      simp only [step] at hi
      rw [create_circle_insights] at hi
      exact h i hi
  | logPractice uid pid da n b =>
      intro i hi
      simp only [step] at hi
      rw [log_practice_insights] at hi
      exact h i hi

lemma insights_private_run (ops : List Op) :
    ∀ db, InsightsPrivate db → InsightsPrivate (run db ops) := by
  induction ops with
  | nil => exact fun db h => h
  | cons op ops ih => exact fun db h => ih (step db op) (insights_private_step db op h)

/-- C9: in every state reachable from the fresh store, every insight
row has a NULL circle reference and is_shared = 0: `add_insight` — the
only way an insight is ever created — names neither column, so the
schema defaults always apply. -/
theorem add_insight_always_private :
    ∀ ops : List Op, InsightsPrivate (run initDB ops) := by
  intro ops
  refine insights_private_run ops initDB ?_
  intro i hi
  exact absurd hi (List.not_mem_nil i)

theorem add_insight_always_private_witness :
    (⟨1, 1, none, "اكتشاف الفطرة", "محتوى", "اكتشاف", false, 0⟩ : InsightRow).circle_id = none
    ∧ (⟨1, 1, none, "اكتشاف الفطرة", "محتوى", "اكتشاف", false, 0⟩ : InsightRow).is_shared
        = false :=
  add_insight_always_private [Op.addInsight 1 "اكتشاف الفطرة" "محتوى" "اكتشاف"]
    ⟨1, 1, none, "اكتشاف الفطرة", "محتوى", "اكتشاف", false, 0⟩ (List.Mem.head _)

lemma insCount_step (db : DB) (op : Op) (u : Nat) :
    insCount (step db op) u = insCount db u +
      match op with
      | Op.addInsight uid _ _ _ => if uid = u then 1 else 0
      | _ => 0 := by
  cases op with
  | register un em ft =>
      show insCount (register db un em ft).2 u = insCount db u + 0
      unfold insCount
      rw [register_insights]
      omega
  | updateConsciousness uid lvl => rfl
  | addInsight uid t c ty =>
      show insCount (add_insight db uid t c ty) u
        = insCount db u + (if uid = u then 1 else 0)
      by_cases huid : uid = u <;>
        simp [insCount, add_insight, List.filter_append, huid]
  | createCircle n d a ct =>
      show insCount (create_circle db n d a ct).2 u = insCount db u + 0
      unfold insCount
      rw [create_circle_insights]
      omega
  | addMember cid uid r =>
      show insCount (add_member db cid uid r) u = insCount db u + 0
      unfold insCount
      rw [add_member_insights]
      omega
  | setIntention cid t => rfl
  | addPractice t ty c dm tl => rfl
  | logPractice uid pid da n b =>
      show insCount (log_practice db uid pid da n b).2 u = insCount db u + 0
      unfold insCount
      rw [log_practice_insights]
      omega

lemma logCount_step (db : DB) (op : Op) (u : Nat) :
    logCount (step db op) u = logCount db u +
      match op with
      | Op.logPractice uid pid da n b =>
          if uid = u ∧ (log_practice db uid pid da n b).1.isOk = true then 1 else 0
      | _ => 0 := by
  cases op with
  | register un em ft =>
      show logCount (register db un em ft).2 u = logCount db u + 0
      unfold logCount
      rw [register_logs]
      omega
  | updateConsciousness uid lvl => rfl
  | addInsight uid t c ty => rfl
  | createCircle n d a ct =>
      show logCount (create_circle db n d a ct).2 u = logCount db u + 0
      unfold logCount
      rw [create_circle_logs]
      omega
  | addMember cid uid r =>
      show logCount (add_member db cid uid r) u = logCount db u + 0
      unfold logCount
      rw [add_member_logs]
      omega
  | setIntention cid t => rfl
  | addPractice t ty c dm tl => rfl
  | logPractice uid pid da n b =>
      show logCount (log_practice db uid pid da n b).2 u
        = logCount db u
            + (if uid = u ∧ (log_practice db uid pid da n b).1.isOk = true then 1 else 0)
      cases hpf : findPractice db pid with
      | none =>
          simp [log_practice, hpf, LogResult.isOk, logCount]
      | some p =>
          by_cases hz : p.duration_minutes = 0
          · simp [log_practice, hpf, hz, LogResult.isOk, logCount]
          · by_cases huid : uid = u
            · simp [log_practice, hpf, hz, LogResult.isOk, logCount,
                List.filter_append, huid]
            · simp [log_practice, hpf, hz, LogResult.isOk, logCount,
                List.filter_append, huid]

lemma insCount_run (ops : List Op) :
    ∀ (db : DB) (u : Nat),
      insCount (run db ops) u = insCount db u + countInsightOps u ops := by
  induction ops with
  | nil => intro db u; rfl
  | cons op ops ih =>
      intro db u
      have h1 : run db (op :: ops) = run (step db op) ops := rfl
      rw [h1, ih, insCount_step]
      cases op <;> simp [countInsightOps] <;> omega

lemma logCount_run (ops : List Op) :
    ∀ (db : DB) (u : Nat),
      logCount (run db ops) u = logCount db u + countLogOps u db ops := by
  induction ops with
  | nil => intro db u; rfl
  | cons op ops ih =>
      intro db u
      have h1 : run db (op :: ops) = run (step db op) ops := rfl
      rw [h1, ih, logCount_step]
      cases op <;> simp [countLogOps] <;> omega

/-- C7: after any trace from the fresh store, `get_journey_summary`
for a registered user reports an insight count equal to the number of
AddInsight calls issued for that user (all of which succeed) and a
practice-log count equal to the number of LogPractice calls for that
user that succeeded, and reports the user's stored handle, category,
current level and registration timestamp.  It is a pure read: it takes
the store and returns only the summary, never a new store. -/
theorem get_journey_summary_counts (ops : List Op) (user_id : Nat) :
    (get_journey_summary (run initDB ops) user_id).map
        (fun s => (s.insights_count, s.practices_count))
      = (findUser (run initDB ops) user_id).map
          (fun _ => (countInsightOps user_id ops, countLogOps user_id initDB ops))
    ∧ (get_journey_summary (run initDB ops) user_id).map
        (fun s => (s.username, s.fitra_type, s.consciousness_level, s.created_at))
      = (findUser (run initDB ops) user_id).map
          (fun u => (u.username, u.fitra_type, u.consciousness_level, u.created_at)) := by
  have hins : insCount (run initDB ops) user_id = countInsightOps user_id ops := by
    have h := insCount_run ops initDB user_id
    rwa [show insCount initDB user_id = 0 from rfl, Nat.zero_add] at h
  have hlog : logCount (run initDB ops) user_id = countLogOps user_id initDB ops := by
    have h := logCount_run ops initDB user_id
    rwa [show logCount initDB user_id = 0 from rfl, Nat.zero_add] at h
  cases hf : findUser (run initDB ops) user_id with
  | none => simp [get_journey_summary, hf]
  | some u0 =>
      constructor
      · simp only [get_journey_summary, hf, Option.map_some']
        rw [show ((run initDB ops).insights.filter (fun i => i.user_id == user_id)).length
              = insCount (run initDB ops) user_id from rfl,
            show ((run initDB ops).logs.filter (fun l => l.user_id == user_id)).length
              = logCount (run initDB ops) user_id from rfl, hins, hlog]
      · simp [get_journey_summary, hf]

end Firah
